import Mathlib

/-!
Shallow embedding of the knocksterSecurity mobile client core flows:

* the scanner screen verification flow, from app/(tabs)/scanner.tsx
  (processScan, handleBarCodeScanned, handleManualEntry, handleVerifyOtp,
  resetScanner, the OTP modal cancel/verify buttons);
* the guard QR screen pending-action poller, from app/(tabs)/my-qr.tsx
  (checkPendingActions, handleL3Acknowledge, handleCancelL4, the L4 OTP
  modal verify button);
* the API client, from services/apiService.ts (the axios response
  interceptor, the set of methods defined on the ApiService class, logout);
* the auth context logout, from contexts/AuthContext.tsx.

React state hooks become record fields; each event handler becomes a
function from the screen state (plus the server response it awaits, passed
as an explicit argument) to the new screen state together with the list of
network requests the handler issued.
-/

/-- JS string-or-default: the pattern `m || d` applied to an optional string
field, where both absence and the empty string are falsy. -/
def jsOr (o : Option String) (d : String) : String :=
  match o with
  | none => d
  | some s => if s = "" then d else s

/-- JS String.prototype.trim: strips leading and trailing whitespace,
modelled over the character list of the string. -/
def strTrim (s : String) : String :=
  ⟨((s.data.dropWhile Char.isWhitespace).reverse.dropWhile
      Char.isWhitespace).reverse⟩

/-- JS truthiness of an optional string-valued object field: falsy when the
field is absent (undefined) or holds the empty string. -/
def truthyStr : Option String → Bool
  | none => false
  | some s => !(s == "")

/-- Network requests the scanner screen can issue through apiService. -/
inductive NetRequest where
  | scanGuest (invitationId qrCode : String)
  | verifyOtp (invitationId qrCode otpCode : String)
  deriving Repr, DecidableEq

/-- Invitation payload inside scan-guest / verify-otp responses
(services/apiService.ts, ScanGuestResponse / VerifyOTPResponse). -/
structure Invitation where
  id : String := ""
  guestName : Option String := none
  guestPhone : String := ""
  employeeName : String := ""
  employeePhone : String := ""
  securityLevel : Nat := 0
  deriving Repr, DecidableEq

/-- Body of a successful scan-guest response (ScanGuestResponse). -/
structure ScanGuestData where
  status : String
  message : Option String := none
  invitation : Invitation := {}
  deriving Repr, DecidableEq

/-- Body of a successful verify-otp response (VerifyOTPResponse). -/
structure VerifyOtpData where
  status : String := "success"
  message : Option String := none
  invitation : Invitation := {}
  deriving Repr, DecidableEq

/-- The ApiResponse envelope every ApiService method resolves to: either the
parsed body with success true, or the handleError shape with success false
and an error string; data and error are optional fields. -/
structure ApiResponse (α : Type) where
  success : Bool
  data : Option α := none
  error : Option String := none
  deriving Repr, DecidableEq

/-- The pendingOtpData pair the scanner screen retains between a pending_otp
scan response and the follow-up verify call. -/
structure PendingOtp where
  invitationId : String
  qrCode : String
  deriving Repr, DecidableEq

/-- The ScanResult record the scanner screen renders (scanner.tsx). -/
structure ScanResult where
  success : Bool
  message : String
  guestName : Option String := none
  guestPhone : Option String := none
  securityLevel : Option Nat := none
  requiresOtp : Option Bool := none
  invitationId : Option String := none
  qrCode : Option String := none
  deriving Repr, DecidableEq

/-- The useState hook fields of ScannerScreen (scanner.tsx). -/
structure ScannerState where
  scanned : Bool := false
  scanResult : Option ScanResult := none
  showManualEntry : Bool := false
  showOtpModal : Bool := false
  manualQrCode : String := ""
  otpCode : String := ""
  isProcessing : Bool := false
  pendingOtpData : Option PendingOtp := none
  deriving Repr, DecidableEq

/-- Semantic view of JSON.parse applied to the scanned text: the parse can
throw (notJson), yield null so that the subsequent property accesses throw
(jsonNull), or yield a value whose invitationId and qrCode properties are
each either absent/undefined or a string; a parsed primitive behaves as an
object with both properties absent. -/
inductive ScanInput where
  | notJson
  | jsonNull
  | jsonObj (invitationId : Option String) (qrCode : Option String)
  deriving Repr, DecidableEq

/-- The parse-and-validate step at the top of processScan: JSON.parse inside
its own try/catch rethrown as a format error, then the truthiness check on
parsedData.invitationId and parsedData.qrCode. On success it yields the
extracted pair; on failure, the message of the thrown Error. -/
def parseScanInput : ScanInput → Except String (String × String)
  | .notJson => .error "Invalid QR code format"
  | .jsonNull => .error "Cannot read properties of null"
  | .jsonObj iid qrc =>
      if truthyStr iid && truthyStr qrc then
        .ok (iid.getD "", qrc.getD "")
      else
        .error "Missing required QR data"

/-- processScan from scanner.tsx. The awaited apiService.scanGuest response
is passed as the resp argument; it is consulted only when the parse step
succeeded, which is exactly when the scanGuest request appears in the issued
request list. The finally block resets isProcessing in every branch. -/
def processScan (st : ScannerState) (input : ScanInput)
    (resp : ApiResponse ScanGuestData) : ScannerState × List NetRequest :=
  match parseScanInput input with
  | .error msg =>
      ({ st with isProcessing := false,
                 scanResult := some { success := false, message := msg } }, [])
  | .ok (iid, qrc) =>
      let reqs := [NetRequest.scanGuest iid qrc]
      match resp.data with
      | some d =>
        if resp.success then
          if d.status = "pending_otp" then
            let res : ScanResult :=
              { success := true, message := "OTP Required",
                guestName := d.invitation.guestName,
                guestPhone := some d.invitation.guestPhone,
                securityLevel := some d.invitation.securityLevel,
                requiresOtp := some true,
                invitationId := some iid, qrCode := some qrc }
            let pend : PendingOtp := { invitationId := iid, qrCode := qrc }
            ({ st with isProcessing := false, pendingOtpData := some pend,
                       scanResult := some res, showOtpModal := true }, reqs)
          else if d.status = "success" then
            let res : ScanResult :=
              { success := true, message := jsOr d.message "Access Granted",
                guestName := d.invitation.guestName,
                guestPhone := some d.invitation.guestPhone,
                securityLevel := some d.invitation.securityLevel,
                requiresOtp := some false }
            ({ st with isProcessing := false, scanResult := some res }, reqs)
          else
            let res : ScanResult :=
              { success := false, message := jsOr d.message "Scan failed" }
            ({ st with isProcessing := false, scanResult := some res }, reqs)
        else
          let res : ScanResult :=
            { success := false, message := jsOr resp.error "Scan failed" }
          ({ st with isProcessing := false, scanResult := some res }, reqs)
      | none =>
          let res : ScanResult :=
            { success := false, message := jsOr resp.error "Scan failed" }
          ({ st with isProcessing := false, scanResult := some res }, reqs)

/-- handleBarCodeScanned from scanner.tsx: rejects the scan while scanned or
isProcessing, otherwise marks scanned and runs processScan on the decoded
barcode text. -/
def handleBarCodeScanned (st : ScannerState) (input : ScanInput)
    (resp : ApiResponse ScanGuestData) : ScannerState × List NetRequest :=
  if st.scanned || st.isProcessing then (st, [])
  else processScan { st with scanned := true } input resp

/-- handleManualEntry from scanner.tsx: rejects only a blank text field, then
closes the modal, marks scanned, runs processScan on the typed text (input is
the parse view of manualQrCode) and clears the field afterwards. -/
def handleManualEntry (st : ScannerState) (input : ScanInput)
    (resp : ApiResponse ScanGuestData) : ScannerState × List NetRequest :=
  if strTrim st.manualQrCode = "" then (st, [])
  else
    let stepped := processScan
      { st with showManualEntry := false, scanned := true } input resp
    ({ stepped.1 with manualQrCode := "" }, stepped.2)

/-- handleVerifyOtp from scanner.tsx: returns early when the code is blank or
no pendingOtpData pair is retained; otherwise issues the verify request
echoing the retained pair with the entered code. On success it rebuilds
scanResult from the cached guest display fields and closes the modal; on
failure (error result or thrown) only the finally block runs, so every other
field is left as it was. -/
def handleVerifyOtp (st : ScannerState) (resp : ApiResponse VerifyOtpData) :
    ScannerState × List NetRequest :=
  if strTrim st.otpCode = "" then (st, [])
  else
    match st.pendingOtpData with
    | none => (st, [])
    | some p =>
      let reqs := [NetRequest.verifyOtp p.invitationId p.qrCode st.otpCode]
      match resp.data with
      | some d =>
        if resp.success then
          let res : ScanResult :=
            { success := true, message := jsOr d.message "Access Granted",
              guestName := st.scanResult.bind (fun r => r.guestName),
              guestPhone := st.scanResult.bind (fun r => r.guestPhone),
              securityLevel := st.scanResult.bind (fun r => r.securityLevel),
              requiresOtp := some false }
          ({ st with isProcessing := false, scanResult := some res,
                     showOtpModal := false, otpCode := "",
                     pendingOtpData := none }, reqs)
        else ({ st with isProcessing := false }, reqs)
      | none => ({ st with isProcessing := false }, reqs)

/-- resetScanner from scanner.tsx ("Scan Another"). -/
def resetScanner (st : ScannerState) : ScannerState :=
  { st with scanned := false, scanResult := none, otpCode := "",
            pendingOtpData := none }

/-- The OTP modal Cancel button: setShowOtpModal(false) then resetScanner. -/
def cancelOtp (st : ScannerState) : ScannerState :=
  resetScanner { st with showOtpModal := false }

/-- The OTP text field onChangeText handler. -/
def enterOtp (st : ScannerState) (code : String) : ScannerState :=
  { st with otpCode := code }

/-- Enabled condition of the OTP modal Verify button in scanner.tsx, the
negation of its disabled prop: a non-blank code and not isProcessing. -/
def otpVerifyEnabled (st : ScannerState) : Bool :=
  !(strTrim st.otpCode == "") && !st.isProcessing

/-- Enabled condition of the manual entry Submit button in scanner.tsx, the
negation of its disabled prop: only a non-blank text field. -/
def manualSubmitEnabled (st : ScannerState) : Bool :=
  !(strTrim st.manualQrCode == "")

/-- The spec state machine states of the verification flow controller. -/
inductive FlowState where
  | idle | otpPending | granted | denied
  deriving Repr, DecidableEq

/-- Abstraction from the scanner screen state to the spec states: the open
OTP modal is OtpPending; otherwise a rendered result is Granted or Denied by
its success flag, and no result is Idle (camera active). -/
def flowState (st : ScannerState) : FlowState :=
  if st.showOtpModal then .otpPending
  else
    match st.scanResult with
    | some r => if r.success then .granted else .denied
    | none => .idle

/-- A pending L3 scan item from the pending-actions poll (my-qr.tsx). -/
structure PendingL3Scan where
  invitationId : String
  guestName : String := ""
  guestPhone : String := ""
  employeeName : String := ""
  scannedAt : String := ""
  securityLevel : Nat := 3
  deriving Repr, DecidableEq

/-- A pending L4 OTP item from the pending-actions poll (my-qr.tsx). -/
structure PendingL4Otp where
  invitationId : String
  guestName : String := ""
  guestPhone : String := ""
  employeeName : String := ""
  expiresAt : String := ""
  generatedAt : String := ""
  securityLevel : Nat := 4
  deriving Repr, DecidableEq

/-- Body of a successful pending-actions poll response, as destructured in
checkPendingActions of my-qr.tsx. -/
structure PendingActionsData where
  hasL3Scans : Bool
  hasL4Otps : Bool
  pendingL3Scans : List PendingL3Scan := []
  pendingL4Otps : List PendingL4Otp := []
  deriving Repr, DecidableEq

/-- The useState hook fields of MyQRScreen that the poller and its modals
touch (my-qr.tsx). -/
structure MyQrState where
  showL3Modal : Bool := false
  showL4Modal : Bool := false
  l3ScanData : Option PendingL3Scan := none
  l4OtpData : Option PendingL4Otp := none
  otpInput : String := ""
  isVerifyingOtp : Bool := false
  deriving Repr, DecidableEq

/-- The initial MyQRScreen state from its useState initialisers. -/
def initialMyQrState : MyQrState := {}

/-- One poll tick: checkPendingActions from my-qr.tsx, as run by the closure
created on a given render. The showL3Modal and showL4Modal values the guards
test are per-render constants captured by that closure (captured3,
captured4), not the live state: the state setters update the live state st,
but a callback keeps reading the render values it closed over. The awaited
result of the apiService.checkPendingActions() call is the last argument: a
thrown error lands in the catch block which only logs, and an error-shaped
or data-less response is ignored; otherwise each category surfaces its first
list element when its flag is set, its list is non-empty and the captured
modal flag is off. -/
def checkPendingActions (captured3 captured4 : Bool) (st : MyQrState)
    (result : Except String (ApiResponse PendingActionsData)) : MyQrState :=
  match result with
  | .error _ => st
  | .ok resp =>
    match resp.data with
    | some d =>
      if resp.success then
        let st1 :=
          if d.hasL3Scans ∧ 0 < d.pendingL3Scans.length ∧ ¬ captured3 then
            { st with l3ScanData := d.pendingL3Scans.head?, showL3Modal := true }
          else st
        if d.hasL4Otps ∧ 0 < d.pendingL4Otps.length ∧ ¬ captured4 then
          { st1 with l4OtpData := d.pendingL4Otps.head?, showL4Modal := true }
        else st1
      else st
    | none => st

/-- A poll tick as the installed interval actually runs it. The interval is
created once, in a useEffect with an empty dependency list, inside
startPolling of the mount render, so every tick invokes the mount-render
closure, in which showL3Modal and showL4Modal are their useState initial
values: false and false. The initial check startPolling makes before
setInterval runs in the same closure. -/
def intervalTick (st : MyQrState)
    (result : Except String (ApiResponse PendingActionsData)) : MyQrState :=
  checkPendingActions false false st result

/-- handleL3Acknowledge from my-qr.tsx: clears the surfaced L3 item and its
modal flag, issuing no network call. -/
def handleL3Acknowledge (st : MyQrState) : MyQrState :=
  { st with showL3Modal := false, l3ScanData := none }

/-- handleCancelL4 from my-qr.tsx. -/
def handleCancelL4 (st : MyQrState) : MyQrState :=
  { st with showL4Modal := false, l4OtpData := none, otpInput := "" }

/-- Enabled condition of the L4 OTP modal Verify button in my-qr.tsx, the
negation of its disabled prop: not verifying and an input of length
exactly 6. -/
def l4VerifyEnabled (st : MyQrState) : Bool :=
  !st.isVerifyingOtp && (st.otpInput.length == 6)

/-- Method names defined on the ApiService class in services/apiService.ts. -/
def apiServiceMethods : List String :=
  ["login", "logout", "getDashboard", "getGuardQR", "scanGuest", "verifyOtp",
   "getProfile", "updateProfile"]

/-- Result of evaluating apiService.checkPendingActions() under the shipped
ApiService: no such method is defined on the class, so the call throws a
TypeError, which the tick observes as a caught exception. -/
def shippedPollResult : Except String (ApiResponse PendingActionsData) :=
  Except.error "TypeError: apiService.checkPendingActions is not a function"

/-- Iterated poll ticks against the shipped ApiService. -/
def iterateShippedTicks : Nat → MyQrState → MyQrState
  | 0, st => st
  | n + 1, st => iterateShippedTicks n (intervalTick st shippedPollResult)

/-- Secure storage (expo-secure-store): a partial map from keys to strings. -/
def SecureStoreState := String → Option String

/-- SecureStore.deleteItemAsync. -/
def deleteItem (s : SecureStoreState) (k : String) : SecureStoreState :=
  fun k2 => if k2 = k then none else s k2

/-- SecureStore.setItemAsync. -/
def setItem (s : SecureStoreState) (k v : String) : SecureStoreState :=
  fun k2 => if k2 = k then some v else s k2

/-- The operations the ApiService exposes over its shared axios instance. -/
inductive ApiOp where
  | login | getDashboard | getGuardQR | scanGuest | verifyOtp
  | getProfile | updateProfile
  deriving Repr, DecidableEq

/-- One ApiService call through the shared axios instance, seen from secure
storage: the response interceptor in the ApiService constructor deletes the
auth_token key exactly when the HTTP status is 401, before rejection reaches
the calling method; any non-2xx status is rejected and the calling method
returns an error result (second component true) to its caller. The op
argument records which operation ran; the interceptor does not consult it. -/
def runApiCall (store : SecureStoreState) (op : ApiOp) (status : Nat) :
    SecureStoreState × Bool :=
  let store2 := if status = 401 then deleteItem store "auth_token" else store
  (store2, decide (¬ (200 ≤ status ∧ status < 300)))

/-- apiService.logout from services/apiService.ts: deletes auth_token. -/
def apiServiceLogout (s : SecureStoreState) : SecureStoreState :=
  deleteItem s "auth_token"

/-- logout from contexts/AuthContext.tsx: calls apiService.logout, then
deletes auth_token and guard_data. -/
def authLogout (s : SecureStoreState) : SecureStoreState :=
  deleteItem (deleteItem (apiServiceLogout s) "auth_token") "guard_data"

/-- C3: a malformed scan input (unparsable text, null, or a parsed value
missing a truthy invitationId or qrCode) drives processScan to a Denied
result carrying the thrown message, with zero network requests issued. -/
theorem c3_malformed_denied (st : ScannerState) (input : ScanInput)
    (msg : String) (resp : ApiResponse ScanGuestData)
    (hmal : parseScanInput input = Except.error msg)
    (hmodal : st.showOtpModal = false) :
    (processScan st input resp).2 = [] ∧
    (processScan st input resp).1.scanResult
      = some { success := false, message := msg } ∧
    flowState (processScan st input resp).1 = FlowState.denied := by
  refine ⟨?_, ?_, ?_⟩ <;> simp [processScan, hmal, flowState, hmodal]

/-- C3 witness: non-JSON text is denied without any network request. -/
theorem c3_malformed_denied_witness :
    (processScan ({} : ScannerState) ScanInput.notJson
        ({ success := false } : ApiResponse ScanGuestData)).2 = [] ∧
    (processScan ({} : ScannerState) ScanInput.notJson
        ({ success := false } : ApiResponse ScanGuestData)).1.scanResult
      = some { success := false, message := "Invalid QR code format" } ∧
    flowState (processScan ({} : ScannerState) ScanInput.notJson
        ({ success := false } : ApiResponse ScanGuestData)).1
      = FlowState.denied :=
  c3_malformed_denied {} ScanInput.notJson "Invalid QR code format"
    { success := false } rfl rfl

/-- C4: for every API client operation, an HTTP 401 response deletes the
persisted auth_token key from secure storage, and the call is rejected into
the calling method whose catch returns an error result to the caller. -/
theorem c4_unauthorized_clears_token (store : SecureStoreState) (op : ApiOp) :
    (runApiCall store op 401).1 "auth_token" = none ∧
    (runApiCall store op 401).2 = true := by
  refine ⟨?_, ?_⟩ <;> simp [runApiCall, deleteItem]

/-- C9: the shipped ApiService defines no checkPendingActions method, so
every poll tick of the guard QR screen observes a thrown TypeError, the
catch block swallows it leaving the state unchanged, and no L3 or L4 pending
item is ever surfaced from the initial screen state. -/
theorem c9_poll_never_surfaces :
    apiServiceMethods.contains "checkPendingActions" = false ∧
    (∀ c3 c4 : Bool, ∀ st : MyQrState,
      checkPendingActions c3 c4 st shippedPollResult = st) ∧
    (∀ st : MyQrState, intervalTick st shippedPollResult = st) ∧
    (∀ n : Nat,
      (iterateShippedTicks n initialMyQrState).showL3Modal = false ∧
      (iterateShippedTicks n initialMyQrState).showL4Modal = false ∧
      (iterateShippedTicks n initialMyQrState).l3ScanData = none ∧
      (iterateShippedTicks n initialMyQrState).l4OtpData = none) := by
  have hfix : ∀ m, iterateShippedTicks m initialMyQrState = initialMyQrState := by
    intro m
    induction m with
    | zero => rfl
    | succ k ih =>
        simpa [iterateShippedTicks, intervalTick, checkPendingActions,
          shippedPollResult] using ih
  refine ⟨rfl, fun c3 c4 st => rfl, fun st => rfl, fun n => ?_⟩
  rw [hfix n]
  exact ⟨rfl, rfl, rfl, rfl⟩

/-- C10: the 401 interceptor deletes only the auth_token key, so the cached
guard_data profile survives a forced token invalidation unchanged, while the
explicit AuthContext logout deletes both keys. -/
theorem c10_guard_data_survives_401 (store : SecureStoreState) (op : ApiOp) :
    (runApiCall store op 401).1 "guard_data" = store "guard_data" ∧
    (runApiCall store op 401).1 "auth_token" = none ∧
    authLogout store "auth_token" = none ∧
    authLogout store "guard_data" = none := by
  refine ⟨?_, ?_, ?_, ?_⟩ <;>
    simp [runApiCall, deleteItem, authLogout, apiServiceLogout]

/-- The scan-guest response used in the C1 round-trip witness. -/
def c1Resp : ApiResponse ScanGuestData :=
  { success := true, data := some { status := "pending_otp" } }

/-- C1: a scan the server answers with the pending_otp (requires OTP) shape
moves the controller to OtpPending and retains the scanned
invitationId/qrCode pair unchanged in pendingOtpData, and the follow-up
verify issued after entering a code echoes exactly that pair together with
the code, whatever the verify response is. -/
theorem c1_otp_roundtrip (st : ScannerState) (iid qrc code : String)
    (resp : ApiResponse ScanGuestData) (d : ScanGuestData)
    (hdata : resp.data = some d) (hsucc : resp.success = true)
    (hstatus : d.status = "pending_otp")
    (hiid : iid ≠ "") (hqrc : qrc ≠ "") (hcode : strTrim code ≠ "") :
    flowState (processScan st (ScanInput.jsonObj (some iid) (some qrc)) resp).1
      = FlowState.otpPending ∧
    (processScan st (ScanInput.jsonObj (some iid) (some qrc)) resp).1.pendingOtpData
      = some { invitationId := iid, qrCode := qrc } ∧
    ∀ vresp : ApiResponse VerifyOtpData,
      (handleVerifyOtp
        (enterOtp (processScan st (ScanInput.jsonObj (some iid) (some qrc)) resp).1
          code) vresp).2
        = [NetRequest.verifyOtp iid qrc code] := by
  have hparse : parseScanInput (ScanInput.jsonObj (some iid) (some qrc))
      = Except.ok (iid, qrc) := by
    simp [parseScanInput, truthyStr, hiid, hqrc]
  refine ⟨?_, ?_, ?_⟩
  · simp [processScan, hparse, hdata, hsucc, hstatus, flowState]
  · simp [processScan, hparse, hdata, hsucc, hstatus]
  · intro vresp
    rcases vresp with ⟨s, dta, err⟩
    cases dta <;> cases s <;>
      simp [processScan, hparse, hdata, hsucc, hstatus, handleVerifyOtp,
        enterOtp, hcode]

/-- C1 witness: the concrete payload pair (inv1, q1) answered with
pending_otp is retained and echoed by the verify call for code 482913. -/
theorem c1_otp_roundtrip_witness :
    flowState (processScan ({} : ScannerState)
        (ScanInput.jsonObj (some "inv1") (some "q1")) c1Resp).1
      = FlowState.otpPending ∧
    (processScan ({} : ScannerState)
        (ScanInput.jsonObj (some "inv1") (some "q1")) c1Resp).1.pendingOtpData
      = some { invitationId := "inv1", qrCode := "q1" } ∧
    (handleVerifyOtp
        (enterOtp (processScan ({} : ScannerState)
          (ScanInput.jsonObj (some "inv1") (some "q1")) c1Resp).1 "482913")
        ({ success := true } : ApiResponse VerifyOtpData)).2
      = [NetRequest.verifyOtp "inv1" "q1" "482913"] := by
  obtain ⟨h1, h2, h3⟩ := c1_otp_roundtrip {} "inv1" "q1" "482913" c1Resp
    { status := "pending_otp" } rfl rfl rfl (by decide) (by decide) (by decide)
  exact ⟨h1, h2, h3 { success := true }⟩

/-- C6: a failed or rejected OTP verify runs only the catch (an alert) and
the finally (isProcessing reset): every other field is untouched, so the
controller stays in OtpPending with the retained pair, the cached scanResult
guest fields and the modal open, ready for a retry without re-scanning; the
explicit Cancel action is what clears the ephemeral scan state. -/
theorem c6_otp_failure_retries (st : ScannerState)
    (resp : ApiResponse VerifyOtpData) (p : PendingOtp)
    (hp : st.pendingOtpData = some p) (hc : strTrim st.otpCode ≠ "")
    (hmodal : st.showOtpModal = true)
    (hfail : resp.success = false ∨ resp.data = none) :
    (handleVerifyOtp st resp).1 = { st with isProcessing := false } ∧
    flowState (handleVerifyOtp st resp).1 = FlowState.otpPending ∧
    (handleVerifyOtp st resp).1.pendingOtpData = some p ∧
    (handleVerifyOtp st resp).1.scanResult = st.scanResult ∧
    (handleVerifyOtp st resp).2
      = [NetRequest.verifyOtp p.invitationId p.qrCode st.otpCode] ∧
    (cancelOtp st).showOtpModal = false ∧
    (cancelOtp st).pendingOtpData = none ∧
    (cancelOtp st).scanResult = none ∧
    (cancelOtp st).otpCode = "" := by
  have hstep : handleVerifyOtp st resp
      = ({ st with isProcessing := false },
         [NetRequest.verifyOtp p.invitationId p.qrCode st.otpCode]) := by
    rcases hfail with hf | hf
    · cases hd : resp.data <;>
        simp [handleVerifyOtp, hc, hp, hf, hd]
    · simp [handleVerifyOtp, hc, hp, hf]
  rw [hstep]
  refine ⟨rfl, ?_, by rw [hp], rfl, rfl, ?_, ?_, ?_, ?_⟩ <;>
    simp [flowState, hmodal, cancelOtp, resetScanner]

/-- The cached scanResult of the C6/C8 witness states: the pending_otp scan
response displayed Alice at level 2. -/
def c6Cached : ScanResult :=
  { success := true, message := "OTP Required", guestName := some "Alice",
    guestPhone := some "555", securityLevel := some 2,
    requiresOtp := some true, invitationId := some "inv1",
    qrCode := some "q1" }

/-- The scanner state of the C6 witness: OTP modal open after a pending_otp
scan of the pair (inv1, q1), code 111 entered, verify in flight. -/
def c6State : ScannerState :=
  { scanned := true, showOtpModal := true, otpCode := "111",
    isProcessing := true,
    pendingOtpData := some { invitationId := "inv1", qrCode := "q1" },
    scanResult := some c6Cached }

/-- C6 witness: a rejected verify at a concrete OtpPending state changes
only isProcessing, and Cancel clears the sub-flow. -/
theorem c6_otp_failure_retries_witness :
    (handleVerifyOtp c6State
        ({ success := false, error := some "Invalid OTP" }
          : ApiResponse VerifyOtpData)).1
      = { c6State with isProcessing := false } ∧
    flowState (handleVerifyOtp c6State
        ({ success := false, error := some "Invalid OTP" }
          : ApiResponse VerifyOtpData)).1 = FlowState.otpPending ∧
    (handleVerifyOtp c6State
        ({ success := false, error := some "Invalid OTP" }
          : ApiResponse VerifyOtpData)).1.pendingOtpData
      = some { invitationId := "inv1", qrCode := "q1" } ∧
    (handleVerifyOtp c6State
        ({ success := false, error := some "Invalid OTP" }
          : ApiResponse VerifyOtpData)).1.scanResult = c6State.scanResult ∧
    (handleVerifyOtp c6State
        ({ success := false, error := some "Invalid OTP" }
          : ApiResponse VerifyOtpData)).2
      = [NetRequest.verifyOtp "inv1" "q1" "111"] ∧
    (cancelOtp c6State).showOtpModal = false ∧
    (cancelOtp c6State).pendingOtpData = none ∧
    (cancelOtp c6State).scanResult = none ∧
    (cancelOtp c6State).otpCode = "" :=
  c6_otp_failure_retries c6State { success := false, error := some "Invalid OTP" }
    { invitationId := "inv1", qrCode := "q1" } rfl (by decide) rfl (Or.inl rfl)

/-- The Granted scanResult rebuilt by the verify success branch of
handleVerifyOtp, out of the verify response message and the scanResult
cached from the original scan response. -/
def grantedFromCache (msg : Option String) (r : ScanResult) : ScanResult :=
  { success := true, message := jsOr msg "Access Granted",
    guestName := r.guestName, guestPhone := r.guestPhone,
    securityLevel := r.securityLevel, requiresOtp := some false }

/-- C8: a successful OTP verify after a pending_otp scan transitions to
Granted, rebuilding the displayed guest fields (guestName, guestPhone,
securityLevel) from the scanResult cached at scan time, whatever invitation
fields the verify response itself carries. -/
theorem c8_granted_uses_cached_fields (st : ScannerState)
    (resp : ApiResponse VerifyOtpData) (d : VerifyOtpData) (p : PendingOtp)
    (r : ScanResult)
    (hdata : resp.data = some d) (hsucc : resp.success = true)
    (hp : st.pendingOtpData = some p) (hc : strTrim st.otpCode ≠ "")
    (hr : st.scanResult = some r) :
    (handleVerifyOtp st resp).1.scanResult = some (grantedFromCache d.message r) ∧
    flowState (handleVerifyOtp st resp).1 = FlowState.granted ∧
    (handleVerifyOtp st resp).1.showOtpModal = false ∧
    (handleVerifyOtp st resp).1.pendingOtpData = none := by
  refine ⟨?_, ?_, ?_, ?_⟩ <;>
    simp [handleVerifyOtp, hc, hp, hdata, hsucc, hr, grantedFromCache,
      flowState]

/-- The verify response of the C8 witness: its invitation names Bob, while
the cached scan response names Alice. -/
def c8Resp : ApiResponse VerifyOtpData :=
  { success := true,
    data := some { message := some "Entry recorded",
                   invitation := { guestName := some "Bob",
                                   guestPhone := "999", securityLevel := 9 } } }

/-- C8 witness: at the concrete OtpPending state caching Alice, a successful
verify whose response names Bob still renders Alice with the cached phone
and level. -/
theorem c8_granted_uses_cached_fields_witness :
    (handleVerifyOtp c6State c8Resp).1.scanResult
      = some (grantedFromCache (some "Entry recorded") c6Cached) ∧
    flowState (handleVerifyOtp c6State c8Resp).1 = FlowState.granted ∧
    (handleVerifyOtp c6State c8Resp).1.showOtpModal = false ∧
    (handleVerifyOtp c6State c8Resp).1.pendingOtpData = none :=
  c8_granted_uses_cached_fields c6State c8Resp
    { message := some "Entry recorded",
      invitation := { guestName := some "Bob", guestPhone := "999",
                      securityLevel := 9 } }
    { invitationId := "inv1", qrCode := "q1" } c6Cached
    rfl rfl rfl (by decide) rfl

/-- The scanner state of the C2 counterexample: a camera scan is mid-flight
(isProcessing) while the manual entry modal is still open with a well-formed
payload typed in; reachable because the camera keeps decoding barcodes under
the transparent modal and the Submit button is not disabled while
processing. -/
def c2State : ScannerState :=
  { scanned := true, isProcessing := true, showManualEntry := true,
    manualQrCode := "\x7b\"invitationId\":\"inv1\",\"qrCode\":\"q1\"\x7d" }

/-- C2 counterexample: with a verification call already in flight, the
manual entry submit handler is enabled and still issues a second scanGuest
request instead of rejecting it, refuting the claim for the manual entry
path. -/
theorem c2_counterexample :
    c2State.isProcessing = true ∧
    manualSubmitEnabled c2State = true ∧
    (handleManualEntry c2State (ScanInput.jsonObj (some "inv1") (some "q1"))
        ({ success := true, data := some { status := "success" } }
          : ApiResponse ScanGuestData)).2
      = [NetRequest.scanGuest "inv1" "q1"] := by
  refine ⟨rfl, by decide, ?_⟩
  simp [handleManualEntry, processScan, parseScanInput, truthyStr, c2State,
    strTrim]

/-- A successfully parsed scan issues exactly the one scanGuest request,
whatever the server response is. -/
theorem processScan_reqs (st : ScannerState) (input : ScanInput)
    (resp : ApiResponse ScanGuestData) (iid qrc : String)
    (hparse : parseScanInput input = Except.ok (iid, qrc)) :
    (processScan st input resp).2 = [NetRequest.scanGuest iid qrc] := by
  rcases resp with ⟨s, dta, err⟩
  cases dta <;> cases s <;> simp [processScan, hparse]
  split
  · rfl
  · split <;> rfl

/-- C2 amended: the camera entry path is single-flight (a barcode scan while
scanned or processing is rejected with no request, and a completed camera
scan cycle issues exactly one scanGuest call), and the OTP verify button is
disabled while processing; but the manual entry handler checks only that the
text field is non-blank and performs no in-flight check. -/
theorem c2_amended (st : ScannerState) (input : ScanInput)
    (resp : ApiResponse ScanGuestData)
    (hbusy : st.scanned = true ∨ st.isProcessing = true) :
    handleBarCodeScanned st input resp = (st, []) ∧
    (st.isProcessing = true → otpVerifyEnabled st = false) ∧
    (∀ st2 : ScannerState, st2.scanned = false → st2.isProcessing = false →
      ∀ iid qrc : String, iid ≠ "" → qrc ≠ "" →
        (handleBarCodeScanned st2 (ScanInput.jsonObj (some iid) (some qrc))
            resp).2
          = [NetRequest.scanGuest iid qrc]) := by
  refine ⟨?_, ?_, ?_⟩
  · rcases hbusy with h | h <;> simp [handleBarCodeScanned, h]
  · intro h
    simp [otpVerifyEnabled, h]
  · intro st2 hs hip iid qrc hiid hqrc
    have hparse : parseScanInput (ScanInput.jsonObj (some iid) (some qrc))
        = Except.ok (iid, qrc) := by
      simp [parseScanInput, truthyStr, hiid, hqrc]
    rw [handleBarCodeScanned, if_neg (by simp [hs, hip])]
    exact processScan_reqs _ _ resp iid qrc hparse

/-- C2 amended witness: at the concrete mid-flight state the camera handler
rejects, the verify button is disabled, and from the idle state one camera
scan of the pair (inv1, q1) issues exactly the one scanGuest request. -/
theorem c2_amended_witness :
    handleBarCodeScanned c2State (ScanInput.jsonObj (some "inv1") (some "q1"))
        ({ success := true } : ApiResponse ScanGuestData)
      = (c2State, []) ∧
    otpVerifyEnabled c2State = false ∧
    (handleBarCodeScanned ({} : ScannerState)
        (ScanInput.jsonObj (some "inv1") (some "q1"))
        ({ success := true } : ApiResponse ScanGuestData)).2
      = [NetRequest.scanGuest "inv1" "q1"] := by
  obtain ⟨h1, h2, h3⟩ := c2_amended c2State
    (ScanInput.jsonObj (some "inv1") (some "q1"))
    ({ success := true } : ApiResponse ScanGuestData) (Or.inl rfl)
  exact ⟨h1, h2 rfl, h3 {} rfl rfl "inv1" "q1" (by decide) (by decide)⟩

/-- The scanner state of the C7 counterexample: OTP modal open with the
retained pair (inv1, q1) and the three-character code 123 entered. -/
def c7State : ScannerState :=
  { scanned := true, showOtpModal := true, otpCode := "123",
    pendingOtpData := some { invitationId := "inv1", qrCode := "q1" },
    scanResult := some c6Cached }

/-- C7 counterexample: the scanner screen verify button is enabled for the
three-character code 123 and the handler submits it to the server, refuting
the claim that a code not exactly 6 digits is never submitted. -/
theorem c7_counterexample :
    c7State.otpCode.length ≠ 6 ∧
    otpVerifyEnabled c7State = true ∧
    (handleVerifyOtp c7State
        ({ success := false } : ApiResponse VerifyOtpData)).2
      = [NetRequest.verifyOtp "inv1" "q1" "123"] := by
  refine ⟨by decide, by decide, ?_⟩
  simp [handleVerifyOtp, c7State, strTrim]

/-- C7 amended: client-side gating before an OTP submission is: on the
scanner screen, only that the trimmed code is non-blank and a retained pair
exists (the handler then echoes the pair with the code verbatim, with no
length or digits check); on the guard QR L4 modal, that the input has length
exactly 6 (still with no digits check). No other client-side business
validation exists on either path. -/
theorem c7_amended (st : ScannerState) (resp : ApiResponse VerifyOtpData) :
    (strTrim st.otpCode = "" → handleVerifyOtp st resp = (st, [])) ∧
    (st.pendingOtpData = none → handleVerifyOtp st resp = (st, [])) ∧
    (∀ p : PendingOtp, st.pendingOtpData = some p → strTrim st.otpCode ≠ "" →
      (handleVerifyOtp st resp).2
        = [NetRequest.verifyOtp p.invitationId p.qrCode st.otpCode]) ∧
    (∀ st2 : MyQrState, l4VerifyEnabled st2 = true →
      st2.otpInput.length = 6) := by
  refine ⟨?_, ?_, ?_, ?_⟩
  · intro h
    simp [handleVerifyOtp, h]
  · intro h
    cases hc : decide (strTrim st.otpCode = "") <;>
      simp_all [handleVerifyOtp, h]
  · intro p hp hc
    rcases resp with ⟨s, dta, err⟩
    cases dta <;> cases s <;> simp [handleVerifyOtp, hp, hc]
  · intro st2 h
    simp [l4VerifyEnabled] at h
    exact h.2

/-- C7 amended witness: the blank code is rejected locally, the concrete
state submits its code verbatim, and an enabled L4 verify button implies a
length-6 input. -/
theorem c7_amended_witness :
    (handleVerifyOtp ({ otpCode := "   " } : ScannerState)
        ({ success := false } : ApiResponse VerifyOtpData))
      = (({ otpCode := "   " } : ScannerState), []) ∧
    (handleVerifyOtp c7State
        ({ success := false } : ApiResponse VerifyOtpData)).2
      = [NetRequest.verifyOtp "inv1" "q1" "123"] ∧
    ({ otpInput := "482913" } : MyQrState).otpInput.length = 6 := by
  refine ⟨?_, ?_, ?_⟩
  · exact (c7_amended { otpCode := "   " } { success := false }).1 (by decide)
  · exact (c7_amended c7State { success := false }).2.2.1
      { invitationId := "inv1", qrCode := "q1" } rfl (by decide)
  · exact (c7_amended ({} : ScannerState) { success := false }).2.2.2
      { otpInput := "482913" } (by decide)

/-- The pending L3 event the first tick of the C5 scenario reports. -/
def c5EventA : PendingL3Scan := { invitationId := "invA", guestName := "Alice" }

/-- A different pending L3 event heading the next tick's list. -/
def c5EventB : PendingL3Scan := { invitationId := "invB", guestName := "Bob" }

/-- Body of the first C5 tick response: invA pending. -/
def c5DataA : PendingActionsData :=
  { hasL3Scans := true, hasL4Otps := false, pendingL3Scans := [c5EventA] }

/-- Body of the second C5 tick response: invB now heads the list while invA
is still unacknowledged on screen. -/
def c5DataB : PendingActionsData :=
  { hasL3Scans := true, hasL4Otps := false,
    pendingL3Scans := [c5EventB, c5EventA] }

/-- The first C5 tick. -/
def c5TickA : Except String (ApiResponse PendingActionsData) :=
  Except.ok { success := true, data := some c5DataA }

/-- The second C5 tick. -/
def c5TickB : Except String (ApiResponse PendingActionsData) :=
  Except.ok { success := true, data := some c5DataB }

/-- C5, evaluated at the failing input: the first interval tick surfaces the
first reported event, as the claim describes, but the interval callback
closes over the mount-render modal flags, which are permanently false, so
the suppression guard the source writes never consults the live showL3Modal.
The very next tick re-enters the surfacing branch and replaces the surfaced,
still unacknowledged item, where the claim requires it unchanged until the
guard acknowledges it. -/
theorem c5_stale_closure_overwrites :
    (intervalTick initialMyQrState c5TickA).showL3Modal = true ∧
    (intervalTick initialMyQrState c5TickA).l3ScanData = some c5EventA ∧
    (intervalTick (intervalTick initialMyQrState c5TickA) c5TickB).showL3Modal
      = true ∧
    (intervalTick (intervalTick initialMyQrState c5TickA) c5TickB).l3ScanData
      = some c5EventB ∧
    c5EventB ≠ c5EventA := by
  refine ⟨?_, ?_, ?_, ?_, ?_⟩ <;> decide
